import Mathlib

/-!
Shallow embedding of the `CompleteSecurity` session-verification wizard
component. The component holds a wizard state (numeric phase constants,
an optional in-flight verification request, an optional key-backup
descriptor) and a set of change-stream subscriptions; its event handlers
(`_onUsePassphraseClick`, `onVerificationRequest`,
`onVerificationRequestChange`, the skip/back/confirm/done clicks,
`componentWillUnmount`, `render`) are embedded as pure functions over
that state. External collaborators (the matrix client and the
secret-storage accessor) are modelled by an explicit environment record
giving the outcome of each external call.
-/

namespace CompleteSecurity

/-- Phase constant `PHASE_INTRO = 0` from the source. -/
def PHASE_INTRO : Nat := 0

/-- Phase constant `PHASE_BUSY = 1` from the source. -/
def PHASE_BUSY : Nat := 1

/-- Phase constant `PHASE_DONE = 2` from the source. -/
def PHASE_DONE : Nat := 2

/-- Phase constant `PHASE_CONFIRM_SKIP = 3` from the source. -/
def PHASE_CONFIRM_SKIP : Nat := 3

/-- Key-backup descriptor returned by `cli.getKeyBackupVersion()`; its
payload is irrelevant to the wizard, so it is a bare tag. -/
structure BackupInfo where
  version : Nat
deriving DecidableEq, Repr

/-- External verification-request object: carries the counterpart user id
and a `cancelled` flag, and is identified by `id` for the purpose of
tracking change-stream subscriptions. -/
structure VerificationRequest where
  id : Nat
  otherUserId : String
  cancelled : Bool
deriving DecidableEq, Repr

/-- The component's React state, as set up in the constructor. -/
structure WizardState where
  phase : Nat
  verificationRequest : Option VerificationRequest
  backupInfo : Option BackupInfo
deriving DecidableEq, Repr

/-- Component = React state plus the ids of the verification requests
whose change streams the component is currently subscribed to
(`request.on("change", this.onVerificationRequestChange)`). -/
structure Component where
  state : WizardState
  subs : List Nat
deriving DecidableEq, Repr

/-- The state installed by the constructor. -/
def initialState : WizardState :=
  { phase := PHASE_INTRO, verificationRequest := none, backupInfo := none }

/-- Component right after the constructor ran: initial state, no
change-stream subscription. -/
def initialComponent : Component :=
  { state := initialState, subs := [] }

/-- Errors thrown by the external collaborators. `accessCancelled` is the
distinguished `AccessCancelledError`; every other error is `other` with a
code distinguishing instances. -/
inductive JsError
  | accessCancelled
  | other (code : Nat)
deriving DecidableEq, Repr

/-- Behaviour of the external `accessSecretStorage(callback)` call as
observed by the wizard: it may throw synchronously (the only case the
inner `try { ... } catch` can see), its returned promise may reject
asynchronously (the source neither awaits nor attaches a handler to that
promise), or it may run the callback it was given. -/
inductive AccessBehavior
  | throwsSync (e : JsError)
  | rejectsAsync (e : JsError)
  | runsCallback
deriving DecidableEq, Repr

deriving instance DecidableEq for Except

/-- Outcomes of all external calls made on the passphrase path. The
`restoreKeyBackup` field is the outcome of the fire-and-forget
`cli.restoreKeyBackupWithSecretStorage(backupInfo)` call. -/
structure PassphraseEnv where
  getKeyBackupVersion : Except JsError (Option BackupInfo)
  accessSecretStorage : AccessBehavior
  checkOwnCrossSigningTrust : Except JsError Unit
  restoreKeyBackup : Except JsError Unit
  getCrossSigningId : Bool
deriving DecidableEq, Repr

/-- Observable events of a run of `_onUsePassphraseClick`, in the order
they occur. -/
inductive Event
  | setPhase (p : Nat)
  | callGetKeyBackupVersion
  | setBackupInfo (b : Option BackupInfo)
  | callAccessSecretStorage
  | callCheckTrust
  | resolveWait
  | callRestoreKeyBackup (b : BackupInfo)
  | consoleError (e : JsError)
  | consoleLog (e : JsError)
deriving DecidableEq, Repr

/-- Result of a run of `_onUsePassphraseClick`: the component state when
the run comes to rest, whether the handler ran to completion (`settled =
false` means the awaited promise never settles, so the code after the
`await` — including the `catch` block — never executes), and the trace of
events. -/
structure FlowResult where
  state : WizardState
  settled : Bool
  trace : List Event
deriving DecidableEq, Repr

/-- The `catch` block at the end of `_onUsePassphraseClick`: log via
`console.log` unless the error is the `AccessCancelledError`, then set the
phase back to `PHASE_INTRO`. -/
def catchBlock (e : JsError) (s : WizardState) : WizardState × List Event :=
  ({ s with phase := PHASE_INTRO },
    (if e = JsError.accessCancelled then [] else [Event.consoleLog e]) ++
      [Event.setPhase PHASE_INTRO])

/-- Embedding of `_onUsePassphraseClick`. Control flow of the source: set
phase Busy; await `getKeyBackupVersion` and store the result; build a
promise whose executor calls `accessSecretStorage` inside a `try`/`catch`
that sees only synchronous throws (an asynchronous rejection of the
returned promise calls neither `resolve` nor `reject`, so the awaited
promise never settles); inside the callback, await the trust check (a
rejection there also leaves the promise unsettled), call `resolve`, and
then start the backup restore when a descriptor was found; after the
await, set phase Done only when `getCrossSigningId()` is truthy. -/
def onUsePassphraseClick (env : PassphraseEnv) (s : WizardState) : FlowResult :=
  let s1 : WizardState := { s with phase := PHASE_BUSY }
  let tr1 : List Event := [Event.setPhase PHASE_BUSY, Event.callGetKeyBackupVersion]
  match env.getKeyBackupVersion with
  | .error e =>
      let r := catchBlock e s1
      { state := r.1, settled := true, trace := tr1 ++ r.2 }
  | .ok backupInfo =>
      let s2 : WizardState := { s1 with backupInfo := backupInfo }
      let tr2 : List Event :=
        tr1 ++ [Event.setBackupInfo backupInfo, Event.callAccessSecretStorage]
      match env.accessSecretStorage with
      | .throwsSync e =>
          let r := catchBlock e s2
          { state := r.1, settled := true,
            trace := tr2 ++ [Event.consoleError e] ++ r.2 }
      | .rejectsAsync _ =>
          { state := s2, settled := false, trace := tr2 }
      | .runsCallback =>
          match env.checkOwnCrossSigningTrust with
          | .error _ =>
              { state := s2, settled := false, trace := tr2 ++ [Event.callCheckTrust] }
          | .ok _ =>
              let trRestore : List Event :=
                match backupInfo with
                | some b => [Event.callRestoreKeyBackup b]
                | none => []
              let tr3 : List Event :=
                tr2 ++ [Event.callCheckTrust, Event.resolveWait] ++ trRestore
              if env.getCrossSigningId then
                { state := { s2 with phase := PHASE_DONE }, settled := true,
                  trace := tr3 ++ [Event.setPhase PHASE_DONE] }
              else
                { state := s2, settled := true, trace := tr3 }

/-- Observable events of the verification-request handlers: unsubscribing
from, accepting, and subscribing to a request's change stream, and the
`setState` storing or clearing the request reference. -/
inductive VEvent
  | off (id : Nat)
  | accept (id : Nat)
  | on (id : Nat)
  | setRequest (r : Option VerificationRequest)
deriving DecidableEq, Repr

/-- Embedding of `onVerificationRequest`: return immediately when the
request's counterpart is not our own user id; otherwise unsubscribe the
previously stored request (if any), accept the new request, subscribe to
its change stream, and store it. -/
def onVerificationRequest (own : String) (req : VerificationRequest)
    (c : Component) : Component × List VEvent :=
  if req.otherUserId ≠ own then (c, [])
  else
    let offEvents : List VEvent :=
      match c.state.verificationRequest with
      | some prev => [VEvent.off prev.id]
      | none => []
    let subs1 : List Nat :=
      match c.state.verificationRequest with
      | some prev => c.subs.erase prev.id
      | none => c.subs
    ({ state := { c.state with verificationRequest := some req },
       subs := subs1 ++ [req.id] },
     offEvents ++ [VEvent.accept req.id, VEvent.on req.id,
       VEvent.setRequest (some req)])

/-- A change-stream notification for the stored request: the external
request object's `cancelled` flag now reads `cancelledNow`, and
`onVerificationRequestChange` runs: if the stored request is cancelled it
unsubscribes from its change stream and clears the stored reference. The
`none` branch is unreachable while the subscription invariant holds (the
handler is only subscribed while a request is stored); it is the identity
here. -/
def receiveChange (c : Component) (cancelledNow : Bool) : Component × List VEvent :=
  match c.state.verificationRequest with
  | none => (c, [])
  | some r =>
      let r1 : VerificationRequest := { r with cancelled := cancelledNow }
      if r1.cancelled then
        ({ state := { c.state with verificationRequest := none },
           subs := c.subs.erase r1.id },
         [VEvent.off r1.id, VEvent.setRequest none])
      else
        ({ state := { c.state with verificationRequest := some r1 },
           subs := c.subs }, [])

/-- Embedding of `componentWillUnmount`: if a verification request is
stored, unsubscribe from its change stream. Returns the surviving
change-stream subscriptions. -/
def componentWillUnmount (c : Component) : List Nat :=
  match c.state.verificationRequest with
  | some r => c.subs.erase r.id
  | none => c.subs

/-- Embedding of `onSkipClick`: set phase ConfirmSkip. -/
def onSkipClick (s : WizardState) : WizardState :=
  { s with phase := PHASE_CONFIRM_SKIP }

/-- Embedding of `onSkipBackClick`: set phase Intro. -/
def onSkipBackClick (s : WizardState) : WizardState :=
  { s with phase := PHASE_INTRO }

/-- Embedding of `onSkipConfirmClick`: it only calls
`this.props.onFinished()`; the returned number counts how many times the
completion callback is invoked. -/
def onSkipConfirmClick (s : WizardState) : WizardState × Nat := (s, 1)

/-- Embedding of `onDoneClick`: it only calls `this.props.onFinished()`;
the returned number counts how many times the completion callback is
invoked. -/
def onDoneClick (s : WizardState) : WizardState × Nat := (s, 1)

/-- Which body `render` produces. -/
inductive Body
  | encryptionPanel
  | introBody
  | doneBody
  | confirmSkipBody
  | busyBody
deriving DecidableEq, Repr

/-- The phase-dispatch chain of `render`, ending in
`throw new Error(`Unknown phase ${phase}`)`, embedded as `Except.error`. -/
def phaseBody (phase : Nat) : Except String Body :=
  if phase = PHASE_INTRO then .ok .introBody
  else if phase = PHASE_DONE then .ok .doneBody
  else if phase = PHASE_CONFIRM_SKIP then .ok .confirmSkipBody
  else if phase = PHASE_BUSY then .ok .busyBody
  else .error "Unknown phase"

/-- Body selection of `render`: a stored verification request shows the
embedded `EncryptionPanel` regardless of phase; otherwise the body is
chosen by phase. -/
def renderBody (s : WizardState) : Except String Body :=
  match s.verificationRequest with
  | some _ => .ok .encryptionPanel
  | none => phaseBody s.phase

/-- A phase value the component's handlers may store: one of the four
named constants. -/
def phaseValid (p : Nat) : Bool :=
  p == PHASE_INTRO || p == PHASE_BUSY || p == PHASE_DONE || p == PHASE_CONFIRM_SKIP

/-- The change-stream subscriptions the component is supposed to hold:
exactly the stored request's, or none. -/
def expectedSubs (s : WizardState) : List Nat :=
  match s.verificationRequest with
  | some r => [r.id]
  | none => []

/-- Subscription invariant: the component is subscribed to exactly the
stored request's change stream. -/
def SubsInv (c : Component) : Prop :=
  c.subs = expectedSubs c.state

/-- States the component can be in: the constructor's state followed by
any sequence of handler invocations. A passphrase run whose awaited
promise never settles still leaves the component in the run's resting
state, so every `onUsePassphraseClick` result state is reachable. -/
inductive Reachable (own : String) : Component → Prop
  | start : Reachable own initialComponent
  | passphrase (env : PassphraseEnv) (c : Component) :
      Reachable own c →
      Reachable own { c with state := (onUsePassphraseClick env c.state).state }
  | verification (req : VerificationRequest) (c : Component) :
      Reachable own c → Reachable own (onVerificationRequest own req c).1
  | change (b : Bool) (c : Component) :
      Reachable own c → Reachable own (receiveChange c b).1
  | skip (c : Component) :
      Reachable own c → Reachable own { c with state := onSkipClick c.state }
  | skipBack (c : Component) :
      Reachable own c → Reachable own { c with state := onSkipBackClick c.state }

/-- C1: for every run in which the wizard is in phase Intro and the user
triggers the passphrase action, if the key-backup fetch, the secret-storage
access, and the cross-signing trust check all succeed and the client then
reports a cross-signing identity, the handler completes and the final phase
is Done. -/
theorem C1_passphrase_success_done (env : PassphraseEnv) (s : WizardState)
    (b : Option BackupInfo)
    (_hs : s.phase = PHASE_INTRO)
    (hb : env.getKeyBackupVersion = Except.ok b)
    (ha : env.accessSecretStorage = AccessBehavior.runsCallback)
    (ht : env.checkOwnCrossSigningTrust = Except.ok ())
    (hid : env.getCrossSigningId = true) :
    (onUsePassphraseClick env s).settled = true ∧
      (onUsePassphraseClick env s).state.phase = PHASE_DONE := by
  simp [onUsePassphraseClick, hb, ha, ht, hid]

/-- Witness for C1 at a concrete environment and the initial state. -/
theorem C1_witness :
    (onUsePassphraseClick
      ⟨Except.ok (some ⟨1⟩), AccessBehavior.runsCallback, Except.ok (),
        Except.ok (), true⟩ initialState).settled = true ∧
      (onUsePassphraseClick
        ⟨Except.ok (some ⟨1⟩), AccessBehavior.runsCallback, Except.ok (),
          Except.ok (), true⟩ initialState).state.phase = PHASE_DONE :=
  C1_passphrase_success_done _ initialState (some ⟨1⟩) rfl rfl rfl rfl rfl

/-- C7: on the passphrase success path the trace is exactly: set Busy,
fetch the key-backup descriptor, store it, invoke secret-storage access,
check cross-signing trust, resolve the wizard's wait, then start the
restore exactly when a descriptor was found, then set Done when an
identity is reported; and the whole run is independent of the outcome of
the fire-and-forget restore call. -/
theorem C7_effect_order (env : PassphraseEnv) (s : WizardState)
    (b : Option BackupInfo)
    (hb : env.getKeyBackupVersion = Except.ok b)
    (ha : env.accessSecretStorage = AccessBehavior.runsCallback)
    (ht : env.checkOwnCrossSigningTrust = Except.ok ()) :
    (onUsePassphraseClick env s).trace =
      [Event.setPhase PHASE_BUSY, Event.callGetKeyBackupVersion,
        Event.setBackupInfo b, Event.callAccessSecretStorage,
        Event.callCheckTrust, Event.resolveWait] ++
      (match b with
        | some bi => [Event.callRestoreKeyBackup bi]
        | none => []) ++
      (if env.getCrossSigningId then [Event.setPhase PHASE_DONE] else []) ∧
    (∀ r, onUsePassphraseClick { env with restoreKeyBackup := r } s =
      onUsePassphraseClick env s) := by
  constructor
  · rcases hid : env.getCrossSigningId <;> cases b <;>
      simp [onUsePassphraseClick, hb, ha, ht, hid]
  · intro r
    simp [onUsePassphraseClick]

/-- Witness for C7 at a concrete environment and the initial state. -/
theorem C7_witness :
    (onUsePassphraseClick
      ⟨Except.ok (some ⟨2⟩), AccessBehavior.runsCallback, Except.ok (),
        Except.ok (), true⟩ initialState).trace =
      [Event.setPhase PHASE_BUSY, Event.callGetKeyBackupVersion,
        Event.setBackupInfo (some ⟨2⟩), Event.callAccessSecretStorage,
        Event.callCheckTrust, Event.resolveWait] ++
      (match (some (BackupInfo.mk 2) : Option BackupInfo) with
        | some bi => [Event.callRestoreKeyBackup bi]
        | none => []) ++
      (if (⟨Except.ok (some ⟨2⟩), AccessBehavior.runsCallback, Except.ok (),
          Except.ok (), true⟩ : PassphraseEnv).getCrossSigningId then
        [Event.setPhase PHASE_DONE] else []) ∧
    (∀ r, onUsePassphraseClick
      { (⟨Except.ok (some ⟨2⟩), AccessBehavior.runsCallback, Except.ok (),
          Except.ok (), true⟩ : PassphraseEnv) with restoreKeyBackup := r }
        initialState =
      onUsePassphraseClick
        ⟨Except.ok (some ⟨2⟩), AccessBehavior.runsCallback, Except.ok (),
          Except.ok (), true⟩ initialState) :=
  C7_effect_order _ initialState (some ⟨2⟩) rfl rfl rfl

/-- C8: when the key-backup fetch succeeds but `accessSecretStorage`
rejects asynchronously, the awaited promise never settles: the handler
does not complete, the phase stays Busy, nothing is logged by the outer
catch, and no return to Intro happens. -/
theorem C8_async_rejection_hangs (env : PassphraseEnv) (s : WizardState)
    (b : Option BackupInfo) (e : JsError)
    (hb : env.getKeyBackupVersion = Except.ok b)
    (ha : env.accessSecretStorage = AccessBehavior.rejectsAsync e) :
    (onUsePassphraseClick env s).settled = false ∧
    (onUsePassphraseClick env s).state.phase = PHASE_BUSY ∧
    (∀ x, Event.consoleLog x ∉ (onUsePassphraseClick env s).trace) ∧
    Event.setPhase PHASE_INTRO ∉ (onUsePassphraseClick env s).trace := by
  simp [onUsePassphraseClick, hb, ha, PHASE_INTRO, PHASE_BUSY]

/-- Witness for C8 at a concrete environment and the initial state. -/
theorem C8_witness :
    (onUsePassphraseClick
      ⟨Except.ok (some ⟨1⟩), AccessBehavior.rejectsAsync JsError.accessCancelled,
        Except.ok (), Except.ok (), true⟩ initialState).settled = false ∧
    (onUsePassphraseClick
      ⟨Except.ok (some ⟨1⟩), AccessBehavior.rejectsAsync JsError.accessCancelled,
        Except.ok (), Except.ok (), true⟩ initialState).state.phase = PHASE_BUSY ∧
    (∀ x, Event.consoleLog x ∉
      (onUsePassphraseClick
        ⟨Except.ok (some ⟨1⟩), AccessBehavior.rejectsAsync JsError.accessCancelled,
          Except.ok (), Except.ok (), true⟩ initialState).trace) ∧
    Event.setPhase PHASE_INTRO ∉
      (onUsePassphraseClick
        ⟨Except.ok (some ⟨1⟩), AccessBehavior.rejectsAsync JsError.accessCancelled,
          Except.ok (), Except.ok (), true⟩ initialState).trace :=
  C8_async_rejection_hangs _ initialState (some ⟨1⟩) JsError.accessCancelled rfl rfl

/-- C9: when the whole passphrase flow succeeds but the client then
reports no cross-signing identity, the handler completes with the phase
still Busy: neither Done nor Intro is entered. -/
theorem C9_no_identity_stays_busy (env : PassphraseEnv) (s : WizardState)
    (b : Option BackupInfo)
    (hb : env.getKeyBackupVersion = Except.ok b)
    (ha : env.accessSecretStorage = AccessBehavior.runsCallback)
    (ht : env.checkOwnCrossSigningTrust = Except.ok ())
    (hid : env.getCrossSigningId = false) :
    (onUsePassphraseClick env s).settled = true ∧
    (onUsePassphraseClick env s).state.phase = PHASE_BUSY := by
  simp [onUsePassphraseClick, hb, ha, ht, hid]

/-- Witness for C9 at a concrete environment and the initial state. -/
theorem C9_witness :
    (onUsePassphraseClick
      ⟨Except.ok none, AccessBehavior.runsCallback, Except.ok (),
        Except.ok (), false⟩ initialState).settled = true ∧
    (onUsePassphraseClick
      ⟨Except.ok none, AccessBehavior.runsCallback, Except.ok (),
        Except.ok (), false⟩ initialState).state.phase = PHASE_BUSY :=
  C9_no_identity_stays_busy _ initialState none rfl rfl rfl rfl

/-- C2 counterexample: with the secret-storage access throwing the
cancellation condition synchronously, the flow does return to Intro, but
the cancellation IS logged — the inner catch runs `console.error(e)`
before rejecting, for every error kind — so "nothing is logged" fails. -/
theorem C2_counterexample_cancelled_is_logged :
    (onUsePassphraseClick
      ⟨Except.ok none, AccessBehavior.throwsSync JsError.accessCancelled,
        Except.ok (), Except.ok (), true⟩ initialState).state.phase = PHASE_INTRO ∧
    Event.consoleError JsError.accessCancelled ∈
      (onUsePassphraseClick
        ⟨Except.ok none, AccessBehavior.throwsSync JsError.accessCancelled,
          Except.ok (), Except.ok (), true⟩ initialState).trace := by
  decide

/-- C2 (amended): every settled failure of the passphrase flow returns the
wizard to Intro with no error surfaced to the user (the rendered body is
the plain Intro body), and the outer catch logs the error via console.log
exactly when it is not the cancellation condition; however, a failure
delivered as a synchronous throw of the secret-storage call — the
cancellation condition included — is additionally logged once via the
inner console.error. -/
theorem C2_failure_returns_intro (env : PassphraseEnv) (s : WizardState)
    (e : JsError)
    (hreq : s.verificationRequest = none)
    (hfail : env.getKeyBackupVersion = Except.error e ∨
      ((∃ b, env.getKeyBackupVersion = Except.ok b) ∧
        env.accessSecretStorage = AccessBehavior.throwsSync e)) :
    (onUsePassphraseClick env s).settled = true ∧
    (onUsePassphraseClick env s).state.phase = PHASE_INTRO ∧
    renderBody (onUsePassphraseClick env s).state = Except.ok Body.introBody ∧
    (Event.consoleLog e ∈ (onUsePassphraseClick env s).trace ↔
      e ≠ JsError.accessCancelled) ∧
    (Event.consoleError e ∈ (onUsePassphraseClick env s).trace ↔
      (env.accessSecretStorage = AccessBehavior.throwsSync e ∧
        ∃ b, env.getKeyBackupVersion = Except.ok b)) := by
  rcases hfail with he | ⟨⟨b, hb⟩, ha⟩
  · constructor
    · simp [onUsePassphraseClick, catchBlock, he]
    constructor
    · simp [onUsePassphraseClick, catchBlock, he]
    constructor
    · simp [onUsePassphraseClick, catchBlock, he, renderBody, phaseBody, hreq,
        PHASE_INTRO]
    constructor
    · by_cases hc : e = JsError.accessCancelled <;>
        simp [onUsePassphraseClick, catchBlock, he, hc]
    · by_cases hc : e = JsError.accessCancelled <;>
        simp [onUsePassphraseClick, catchBlock, he, hc]
  · constructor
    · simp [onUsePassphraseClick, catchBlock, hb, ha]
    constructor
    · simp [onUsePassphraseClick, catchBlock, hb, ha]
    constructor
    · simp [onUsePassphraseClick, catchBlock, hb, ha, renderBody, phaseBody,
        hreq, PHASE_INTRO]
    constructor
    · by_cases hc : e = JsError.accessCancelled <;>
        simp [onUsePassphraseClick, catchBlock, hb, ha, hc]
    · constructor
      · intro _
        exact ⟨ha, b, hb⟩
      · intro _
        by_cases hc : e = JsError.accessCancelled <;>
          simp [onUsePassphraseClick, catchBlock, hb, ha, hc]

/-- Witness for C2 (amended) at a concrete environment: the secret-storage
call throws the cancellation condition synchronously. -/
theorem C2_witness :
    (onUsePassphraseClick
      ⟨Except.ok none, AccessBehavior.throwsSync JsError.accessCancelled,
        Except.ok (), Except.ok (), true⟩ initialState).settled = true ∧
    (onUsePassphraseClick
      ⟨Except.ok none, AccessBehavior.throwsSync JsError.accessCancelled,
        Except.ok (), Except.ok (), true⟩ initialState).state.phase = PHASE_INTRO ∧
    renderBody (onUsePassphraseClick
      ⟨Except.ok none, AccessBehavior.throwsSync JsError.accessCancelled,
        Except.ok (), Except.ok (), true⟩ initialState).state =
      Except.ok Body.introBody ∧
    (Event.consoleLog JsError.accessCancelled ∈
      (onUsePassphraseClick
        ⟨Except.ok none, AccessBehavior.throwsSync JsError.accessCancelled,
          Except.ok (), Except.ok (), true⟩ initialState).trace ↔
      JsError.accessCancelled ≠ JsError.accessCancelled) ∧
    (Event.consoleError JsError.accessCancelled ∈
      (onUsePassphraseClick
        ⟨Except.ok none, AccessBehavior.throwsSync JsError.accessCancelled,
          Except.ok (), Except.ok (), true⟩ initialState).trace ↔
      ((⟨Except.ok none, AccessBehavior.throwsSync JsError.accessCancelled,
          Except.ok (), Except.ok (), true⟩ : PassphraseEnv).accessSecretStorage =
        AccessBehavior.throwsSync JsError.accessCancelled ∧
        ∃ b, (⟨Except.ok none,
          AccessBehavior.throwsSync JsError.accessCancelled,
          Except.ok (), Except.ok (), true⟩ :
            PassphraseEnv).getKeyBackupVersion = Except.ok b)) :=
  C2_failure_returns_intro _ initialState JsError.accessCancelled rfl
    (Or.inr ⟨⟨none, rfl⟩, rfl⟩)

/-- C3: a verification request from the expected counterpart is accepted
and stored, replacing the phase-based body with the embedded exchange
panel while leaving the phase (and backup info) untouched; a later change
notification reporting it cancelled clears the stored reference, and the
phase-based body is rendered again. -/
theorem C3_matching_request_panel (own : String) (req : VerificationRequest)
    (c : Component)
    (hmatch : req.otherUserId = own) :
    (onVerificationRequest own req c).1.state.verificationRequest = some req ∧
    (onVerificationRequest own req c).1.state.phase = c.state.phase ∧
    (onVerificationRequest own req c).1.state.backupInfo = c.state.backupInfo ∧
    VEvent.accept req.id ∈ (onVerificationRequest own req c).2 ∧
    renderBody (onVerificationRequest own req c).1.state =
      Except.ok Body.encryptionPanel ∧
    (receiveChange (onVerificationRequest own req c).1 true).1.state.verificationRequest
      = none ∧
    (receiveChange (onVerificationRequest own req c).1 true).1.state.phase
      = c.state.phase ∧
    renderBody (receiveChange (onVerificationRequest own req c).1 true).1.state
      = phaseBody c.state.phase := by
  simp [onVerificationRequest, receiveChange, renderBody, hmatch]

/-- Witness for C3 at a concrete request and the initial component. -/
theorem C3_witness :
    (onVerificationRequest "u" ⟨7, "u", false⟩
      initialComponent).1.state.verificationRequest = some ⟨7, "u", false⟩ ∧
    (onVerificationRequest "u" ⟨7, "u", false⟩ initialComponent).1.state.phase
      = initialComponent.state.phase ∧
    (onVerificationRequest "u" ⟨7, "u", false⟩ initialComponent).1.state.backupInfo
      = initialComponent.state.backupInfo ∧
    VEvent.accept 7 ∈ (onVerificationRequest "u" ⟨7, "u", false⟩
      initialComponent).2 ∧
    renderBody (onVerificationRequest "u" ⟨7, "u", false⟩
      initialComponent).1.state = Except.ok Body.encryptionPanel ∧
    (receiveChange (onVerificationRequest "u" ⟨7, "u", false⟩
      initialComponent).1 true).1.state.verificationRequest = none ∧
    (receiveChange (onVerificationRequest "u" ⟨7, "u", false⟩
      initialComponent).1 true).1.state.phase = initialComponent.state.phase ∧
    renderBody (receiveChange (onVerificationRequest "u" ⟨7, "u", false⟩
      initialComponent).1 true).1.state = phaseBody initialComponent.state.phase :=
  C3_matching_request_panel "u" ⟨7, "u", false⟩ initialComponent rfl

/-- C5: a verification request whose counterpart is not the expected user
is ignored: the handler returns before accepting, the component (phase,
verificationRequest, backupInfo, and subscriptions) is unchanged, and no
event is emitted. -/
theorem C5_mismatch_ignored (own : String) (req : VerificationRequest)
    (c : Component)
    (h : req.otherUserId ≠ own) :
    onVerificationRequest own req c = (c, []) := by
  simp [onVerificationRequest, h]

/-- Witness for C5 at a concrete mismatching request. -/
theorem C5_witness :
    onVerificationRequest "u" ⟨7, "v", false⟩ initialComponent =
      (initialComponent, []) :=
  C5_mismatch_ignored "u" ⟨7, "v", false⟩ initialComponent (by decide)

/-- C6: from Intro, the skip click moves the wizard to ConfirmSkip; the
go-back click from there returns it to Intro; and the skip-confirm click
leaves the state unchanged and invokes the completion callback exactly
once. -/
theorem C6_skip_flow (s : WizardState) (_hs : s.phase = PHASE_INTRO) :
    (onSkipClick s).phase = PHASE_CONFIRM_SKIP ∧
    (onSkipBackClick (onSkipClick s)).phase = PHASE_INTRO ∧
    onSkipConfirmClick (onSkipClick s) = (onSkipClick s, 1) := by
  simp [onSkipClick, onSkipBackClick, onSkipConfirmClick]

/-- Witness for C6 at the initial state. -/
theorem C6_witness :
    (onSkipClick initialState).phase = PHASE_CONFIRM_SKIP ∧
    (onSkipBackClick (onSkipClick initialState)).phase = PHASE_INTRO ∧
    onSkipConfirmClick (onSkipClick initialState) = (onSkipClick initialState, 1) :=
  C6_skip_flow initialState rfl

/-- Helper: the subscription invariant implies at most one subscription. -/
theorem subsInv_length_le_one (c : Component) (h : SubsInv c) :
    c.subs.length ≤ 1 := by
  rw [SubsInv] at h
  rw [h, expectedSubs]
  rcases c.state.verificationRequest with _ | r <;> simp

/-- Helper: `onVerificationRequest` preserves the subscription invariant. -/
theorem subsInv_onVerificationRequest (own : String) (req : VerificationRequest)
    (c : Component) (h : SubsInv c) :
    SubsInv (onVerificationRequest own req c).1 := by
  rw [SubsInv] at h
  by_cases hm : req.otherUserId ≠ own
  · simpa [onVerificationRequest, hm, SubsInv] using h
  · rcases hr : c.state.verificationRequest with _ | prev <;>
      simp [expectedSubs, hr] at h <;>
      simp [onVerificationRequest, hm, hr, SubsInv, expectedSubs, h]

/-- Helper: `receiveChange` preserves the subscription invariant. -/
theorem subsInv_receiveChange (c : Component) (b : Bool) (h : SubsInv c) :
    SubsInv (receiveChange c b).1 := by
  rw [SubsInv] at h
  rcases hr : c.state.verificationRequest with _ | r <;>
    simp [expectedSubs, hr] at h
  · simpa [receiveChange, hr, SubsInv, expectedSubs] using h
  · cases b <;> simp [receiveChange, hr, SubsInv, expectedSubs, h]

/-- C4: the component is always subscribed to exactly the stored request's
change stream (so never more than one subscription): this holds initially,
is preserved by the verification-request handler (which unsubscribes the
previously stored request first — its trace starts with the `off` event)
and by the change handler, and unmounting leaves no subscription alive. -/
theorem C4_single_subscription :
    SubsInv initialComponent ∧
    (∀ c, SubsInv c → c.subs.length ≤ 1) ∧
    (∀ own req c, SubsInv c → SubsInv (onVerificationRequest own req c).1) ∧
    (∀ c b, SubsInv c → SubsInv (receiveChange c b).1) ∧
    (∀ c, SubsInv c → componentWillUnmount c = []) ∧
    (∀ own req c prev, c.state.verificationRequest = some prev →
      req.otherUserId = own →
      ∃ l, (onVerificationRequest own req c).2 = VEvent.off prev.id :: l) := by
  refine ⟨rfl, subsInv_length_le_one, subsInv_onVerificationRequest,
    subsInv_receiveChange, ?_, ?_⟩
  · intro c h
    rw [SubsInv] at h
    rcases hr : c.state.verificationRequest with _ | r <;>
      simp [expectedSubs, hr] at h <;> simp [componentWillUnmount, hr, h]
  · intro own req c prev hr hm
    refine ⟨[VEvent.accept req.id, VEvent.on req.id,
      VEvent.setRequest (some req)], ?_⟩
    simp [onVerificationRequest, hm, hr]

/-- Witness for C4: the invariant is preserved when a second matching
request replaces a stored one. -/
theorem C4_witness :
    SubsInv (onVerificationRequest "u" ⟨2, "u", false⟩
      ⟨⟨PHASE_INTRO, some ⟨1, "u", false⟩, none⟩, [1]⟩).1 :=
  C4_single_subscription.2.2.1 "u" ⟨2, "u", false⟩
    ⟨⟨PHASE_INTRO, some ⟨1, "u", false⟩, none⟩, [1]⟩ rfl

/-- Helper: every run of the passphrase flow leaves a valid phase,
whatever the environment does. -/
theorem phaseValid_flow (env : PassphraseEnv) (s : WizardState) :
    phaseValid (onUsePassphraseClick env s).state.phase = true := by
  rcases env with ⟨gb, ab, ct, rb, cid⟩
  rcases gb with e | b <;> rcases ab with e2 | e2 | _ <;>
    rcases ct with e3 | u <;> cases cid <;>
    simp [onUsePassphraseClick, catchBlock, phaseValid]

/-- Helper: the verification-request handler never changes the phase. -/
theorem phase_onVerificationRequest (own : String) (req : VerificationRequest)
    (c : Component) :
    (onVerificationRequest own req c).1.state.phase = c.state.phase := by
  by_cases hm : req.otherUserId ≠ own <;> simp [onVerificationRequest, hm]

/-- Helper: the change handler never changes the phase. -/
theorem phase_receiveChange (c : Component) (b : Bool) :
    (receiveChange c b).1.state.phase = c.state.phase := by
  rcases hr : c.state.verificationRequest with _ | r <;> cases b <;>
    simp [receiveChange, hr]

/-- Helper: a valid phase makes `render` produce a body, never the
unknown-phase error. -/
theorem renderBody_ok_of_phaseValid (s : WizardState)
    (h : phaseValid s.phase = true) :
    ∃ b, renderBody s = Except.ok b := by
  rcases hr : s.verificationRequest with _ | r
  · have h' : s.phase = 0 ∨ s.phase = 1 ∨ s.phase = 2 ∨ s.phase = 3 := by
      rw [phaseValid] at h
      simp [PHASE_INTRO, PHASE_BUSY, PHASE_DONE, PHASE_CONFIRM_SKIP] at h
      tauto
    rcases h' with h' | h' | h' | h'
    · exact ⟨Body.introBody,
        by simp [renderBody, hr, phaseBody, h', PHASE_INTRO]⟩
    · exact ⟨Body.busyBody,
        by simp [renderBody, hr, phaseBody, h', PHASE_INTRO, PHASE_BUSY,
          PHASE_DONE, PHASE_CONFIRM_SKIP]⟩
    · exact ⟨Body.doneBody,
        by simp [renderBody, hr, phaseBody, h', PHASE_INTRO, PHASE_DONE]⟩
    · exact ⟨Body.confirmSkipBody,
        by simp [renderBody, hr, phaseBody, h', PHASE_INTRO, PHASE_DONE,
          PHASE_CONFIRM_SKIP]⟩
  · exact ⟨Body.encryptionPanel, by simp [renderBody, hr]⟩

/-- C10: every phase a reachable component stores is one of the four
constants, so the unknown-phase error branch of `render` is unreachable
and `render` never throws; moreover every phase value the passphrase flow
ever writes (including transient ones recorded in its trace) is one of
the four constants. -/
theorem C10_render_never_throws :
    (∀ own c, Reachable own c →
      phaseValid c.state.phase = true ∧
        ∃ b, renderBody c.state = Except.ok b) ∧
    (∀ env s p, Event.setPhase p ∈ (onUsePassphraseClick env s).trace →
      phaseValid p = true) := by
  constructor
  · intro own c h
    have key : phaseValid c.state.phase = true := by
      induction h with
      | start => rfl
      | passphrase env c _ _ => exact phaseValid_flow env c.state
      | verification req c _ ih => rw [phase_onVerificationRequest]; exact ih
      | change b c _ ih => rw [phase_receiveChange]; exact ih
      | skip c _ _ => simp [onSkipClick, phaseValid]
      | skipBack c _ _ => simp [onSkipBackClick, phaseValid]
    exact ⟨key, renderBody_ok_of_phaseValid _ key⟩
  · intro env s p hp
    rcases env with ⟨gb, ab, ct, rb, cid⟩
    have hp' : p = 1 ∨ p = 0 ∨ p = 2 := by
      rcases gb with e | b
      · by_cases hc : e = JsError.accessCancelled <;>
          simp [onUsePassphraseClick, catchBlock, hc, PHASE_BUSY,
            PHASE_INTRO] at hp <;> tauto
      · rcases ab with e2 | e2 | _
        · by_cases hc : e2 = JsError.accessCancelled <;>
            simp [onUsePassphraseClick, catchBlock, hc, PHASE_BUSY,
              PHASE_INTRO] at hp <;> tauto
        · simp [onUsePassphraseClick, PHASE_BUSY] at hp
          tauto
        · rcases ct with e3 | u
          · simp [onUsePassphraseClick, PHASE_BUSY] at hp
            tauto
          · rcases b with _ | bi <;> cases cid <;>
              simp [onUsePassphraseClick, PHASE_BUSY, PHASE_DONE] at hp <;>
              tauto
    rcases hp' with h | h | h <;> subst h <;> rfl

/-- Witness for C10 at the initial component. -/
theorem C10_witness :
    phaseValid initialComponent.state.phase = true ∧
    ∃ b, renderBody initialComponent.state = Except.ok b :=
  C10_render_never_throws.1 "u" initialComponent Reachable.start

end CompleteSecurity
